import Mathlib

/-!
Shallow embedding of the dashboard web backend (src/app/auth.py,
src/app/database.py, src/app/main.py) and proofs about its
authentication gate, credential hashing, and pooled database layer.

Python exceptions are modelled with `Except`; a Python function that may
raise is embedded as a Lean function into `Except PyExn _`.  Session
dictionaries are records of `Option` fields (a `none` field is an absent
key).  The database backend (psycopg2 connection, cursor, pool) is
modelled by a `Backend` record that says which primitive step succeeds
or fails and which rows a fetch returns; each query helper additionally
returns the list of pool / transaction events it performed, in order,
so that resource-lifecycle and atomicity properties can be stated.
-/

namespace Dashboard

/-! ## Models of the Python string operations the code uses

Python `str` is a sequence of characters; the operations are embedded
via the character list of a Lean `String` so that they evaluate on
concrete inputs. -/

/-- Python `s.startswith(pre)`. -/
def pyStartswith (s pre : String) : Bool :=
  pre.toList.isPrefixOf s.toList

/-- Python `s.strip()`: remove leading and trailing whitespace. -/
def pyStrip (s : String) : String :=
  ⟨((s.toList.dropWhile Char.isWhitespace).reverse.dropWhile
      Char.isWhitespace).reverse⟩

/-- Python `s.lower()`. -/
def pyLower (s : String) : String :=
  ⟨s.toList.map Char.toLower⟩

/-- Whether `pat` occurs as a contiguous run inside `l`. -/
def containsSub (pat : List Char) : List Char → Bool
  | [] => decide (pat = [])
  | c :: rest => pat.isPrefixOf (c :: rest) || containsSub pat rest

/-- Python `pat in s` on strings: substring containment. -/
def pyIn (pat s : String) : Bool := containsSub pat.toList s.toList

/-- Model of Python exception values that arise in the embedded code:
`ValueError` (raised by bcrypt.checkpw on a malformed hash), `KeyError`
(raised by a dict lookup on a missing key), and psycopg2 database errors.
A real psycopg2 error object carries both a human-readable message
(`str(e)`) and a structured SQLSTATE code (`e.pgcode`, e.g. "23505" for
a unique violation); the model keeps both so that we can ask which one
the application code actually inspects.  `dataAccessError` is the
distinguished wrapper the specification postulates; it is defined here
only so that "the propagated error is (not) a DataAccessError" is a
statable property — no embedded code ever constructs it. -/
inductive PyExn where
  | valueError (msg : String)
  | keyError (key : String)
  | psycopg2Error (sqlstate : String) (msg : String)
  | dataAccessError (cause : String)
deriving DecidableEq, Repr

/-- Python `str(e)` on the modelled exceptions. -/
def pyStr : PyExn → String
  | .valueError msg => msg
  | .keyError k => k
  | .psycopg2Error _ msg => msg
  | .dataAccessError c => c

/-! ## CredentialHasher: bcrypt model (src/app/auth.py lines 9-17)

A bcrypt hash string either parses (it encodes a cost factor, a salt and
a digest) or it does not.  The digest function itself is kept abstract:
every definition and theorem is parameterized by an arbitrary
`digest : String → Nat → Nat → Nat` (password, cost, salt ↦ digest), so
nothing below depends on properties the real bcrypt digest does not have. -/

/-- A stored bcrypt hash string: either well formed, encoding the cost,
salt and digest together (bcrypt's self-describing output format), or
malformed (any string checkpw cannot parse). -/
inductive HashStr where
  | wellFormed (cost : Nat) (salt : Nat) (digest : Nat)
  | malformed (raw : String)
deriving DecidableEq, Repr

/-- bcrypt.checkpw: parses the stored hash; on a malformed hash it raises
ValueError (the real library raises ValueError "Invalid salt"); on a
well-formed hash it recomputes the digest with the embedded cost and salt
and compares. -/
def checkpw (digest : String → Nat → Nat → Nat) (password : String)
    (h : HashStr) : Except PyExn Bool :=
  match h with
  | .malformed _ => .error (.valueError "Invalid salt")
  | .wellFormed cost salt d => .ok (digest password cost salt == d)

/-- bcrypt.hashpw with bcrypt.gensalt(rounds=12): the salt is drawn fresh
per call, so it is a parameter; the cost factor is fixed at 12 as in
`hash_password` (src/app/auth.py line 11). -/
def hash_password (digest : String → Nat → Nat → Nat) (salt : Nat)
    (password : String) : HashStr :=
  .wellFormed 12 salt (digest password 12 salt)

/-- src/app/auth.py lines 15-17: `verify_password` simply returns
`bcrypt.checkpw(...)` with no exception handling of its own. -/
def verify_password (digest : String → Nat → Nat → Nat) (password : String)
    (password_hash : HashStr) : Except PyExn Bool :=
  checkpw digest password password_hash

/-! ## AuthorizationGate: session model and decorators (src/app/auth.py) -/

/-- A Flask session dict restricted to the keys this application uses;
a `none` field models an absent key. -/
structure Session where
  user_id : Option Nat
  username : Option String
  is_admin : Option Bool
  must_change_password : Option Bool
deriving DecidableEq, Repr

/-- Outcome of a gate-wrapped request: a JSON error body with a status
code, a redirect to a named endpoint, or the wrapped handler's result. -/
inductive GateResult (α : Type) where
  | jsonError (msg : String) (status : Nat)
  | redirectTo (endpoint : String)
  | handled (a : α)
deriving DecidableEq, Repr

/-- True exactly when the gate produced a JSON error response. -/
def GateResult.isJsonError {α : Type} : GateResult α → Bool
  | .jsonError _ _ => true
  | _ => false

/-- src/app/auth.py lines 20-31: the `login_required` decorator.  The
wrapped handler `f` runs only when the session holds a `user_id`. -/
def login_required {α : Type} (f : Session → α) (sess : Session)
    (path : String) : GateResult α :=
  if sess.user_id.isNone then
    if pyStartswith path "/api/" then .jsonError "Unauthorized" 401
    else .redirectTo "login"
  else .handled (f sess)

/-- src/app/auth.py lines 34-49: the `admin_required` decorator.  The
unauthenticated check is first (identical to login_required); then
`session.get('is_admin', False)` must be truthy. -/
def admin_required {α : Type} (f : Session → α) (sess : Session)
    (path : String) : GateResult α :=
  if sess.user_id.isNone then
    if pyStartswith path "/api/" then .jsonError "Unauthorized" 401
    else .redirectTo "login"
  else if (sess.is_admin.getD false) = false then
    if pyStartswith path "/api/" then
      .jsonError "Forbidden - Admin access required" 403
    else .redirectTo "dashboard"
  else .handled (f sess)

/-- The record `get_current_user` builds (src/app/auth.py lines 52-60). -/
structure CurrentUser where
  id : Nat
  username : String
  is_admin : Bool
deriving DecidableEq, Repr

/-- src/app/auth.py lines 52-60: `get_current_user`.  When `user_id` is
present, `session['username']` is a plain indexing that raises KeyError
if absent, while `is_admin` uses `.get` with default False. -/
def get_current_user (sess : Session) : Except PyExn (Option CurrentUser) :=
  match sess.user_id with
  | none => .ok none
  | some uid =>
    match sess.username with
    | none => .error (.keyError "username")
    | some un => .ok (some ⟨uid, un, sess.is_admin.getD false⟩)

/-! ## QueryExecutor / ConnectionPool: src/app/database.py

Each `DatabaseManager` method is embedded as a function of a `Backend`,
which fixes the behaviour of the underlying psycopg2 primitives for the
one connection the call acquires: whether `pool.getconn`, the cursor's
`execute`, the fetch, `conn.commit` and `conn.rollback` succeed, which
exception each raises when it fails, and which rows a fetch returns.
Besides the Python result (`Except` for raise vs. return), each method
returns the ordered list of pool / transaction events it performed, so
that release-exactly-once and atomicity are statable. -/

/-- A result row as materialized by RealDictCursor: field name → value. -/
abbrev Row := List (String × String)

/-- One primitive event on the acquired connection, in program order.
`commit true` is a commit that succeeded (the transaction's effects
become visible); `commit false` is a commit attempt that raised.
`rollback` is a rollback attempt (made in the `except` branch whether or
not it itself raises); `putconn` is `return_connection`. -/
inductive DbEvent where
  | getconn
  | execute
  | fetchall
  | fetchone
  | commit (success : Bool)
  | rollback
  | putconn
deriving DecidableEq, Repr

/-- Behaviour of the psycopg2 layer for one call: which primitive steps
succeed, the exception raised by each failing step, and the rows the
cursor would return. -/
structure Backend where
  getconnOk : Bool
  getconnErr : PyExn
  executeOk : Bool
  executeErr : PyExn
  fetchOk : Bool
  fetchErr : PyExn
  commitOk : Bool
  commitErr : PyExn
  rollbackOk : Bool
  rollbackErr : PyExn
  rows : List Row
deriving DecidableEq, Repr

/-- A backend on which every primitive step succeeds. -/
def Backend.allOk (rows : List Row) : Backend :=
  { getconnOk := true, getconnErr := .psycopg2Error "" ""
    executeOk := true, executeErr := .psycopg2Error "" ""
    fetchOk := true, fetchErr := .psycopg2Error "" ""
    commitOk := true, commitErr := .psycopg2Error "" ""
    rollbackOk := true, rollbackErr := .psycopg2Error "" ""
    rows := rows }

/-- The `except Exception as e: if conn: conn.rollback(); raise e` branch
shared by all three query methods, entered with exception `e` after the
events `pre` (the connection is non-None here).  If `conn.rollback()`
itself raises, that new exception propagates instead of `e` and the
`raise e` line is never reached; the `finally` block returns the
connection either way. -/
def exceptBranch {α : Type} (b : Backend) (e : PyExn) (pre : List DbEvent) :
    Except PyExn α × List DbEvent :=
  ((if b.rollbackOk then .error e else .error b.rollbackErr),
   pre ++ [.rollback, .putconn])

/-- src/app/database.py lines 33-53: `execute_query`.  On the fetch path
there is no commit; on the non-fetch path the statement is committed.
When `get_connection` raises, `conn` is still None, so neither the
`except` rollback nor the `finally` release runs. -/
def execute_query (b : Backend) (fetch : Bool) :
    Except PyExn (Option (List Row)) × List DbEvent :=
  if b.getconnOk = false then (.error b.getconnErr, [])
  else if b.executeOk = false then
    exceptBranch b b.executeErr [.getconn, .execute]
  else if fetch then
    if b.fetchOk = false then
      exceptBranch b b.fetchErr [.getconn, .execute, .fetchall]
    else (.ok (some b.rows), [.getconn, .execute, .fetchall, .putconn])
  else
    if b.commitOk = false then
      exceptBranch b b.commitErr [.getconn, .execute, .commit false]
    else (.ok none, [.getconn, .execute, .commit true, .putconn])

/-- src/app/database.py lines 55-72: `execute_one`.  `fetchone` yields the
first row or Python `None`; `dict(result) if result else None` maps that
to an optional record.  No commit is issued on any path of this method. -/
def execute_one (b : Backend) : Except PyExn (Option Row) × List DbEvent :=
  if b.getconnOk = false then (.error b.getconnErr, [])
  else if b.executeOk = false then
    exceptBranch b b.executeErr [.getconn, .execute]
  else if b.fetchOk = false then
    exceptBranch b b.fetchErr [.getconn, .execute, .fetchone]
  else (.ok b.rows.head?, [.getconn, .execute, .fetchone, .putconn])

/-- src/app/database.py lines 74-92: `execute_insert`: execute, fetch the
RETURNING row, then commit; rollback in the `except` branch; release in
`finally`. -/
def execute_insert (b : Backend) : Except PyExn (Option Row) × List DbEvent :=
  if b.getconnOk = false then (.error b.getconnErr, [])
  else if b.executeOk = false then
    exceptBranch b b.executeErr [.getconn, .execute]
  else if b.fetchOk = false then
    exceptBranch b b.fetchErr [.getconn, .execute, .fetchone]
  else if b.commitOk = false then
    exceptBranch b b.commitErr [.getconn, .execute, .fetchone, .commit false]
  else
    (.ok b.rows.head?, [.getconn, .execute, .fetchone, .commit true, .putconn])

/-- Number of `putconn` (pool release) events in a trace. -/
def countPutconn : List DbEvent → Nat
  | [] => 0
  | .putconn :: t => countPutconn t + 1
  | _ :: t => countPutconn t

/-- Whether a trace makes any effect durable: it contains a commit that
succeeded. -/
def committedEffect (t : List DbEvent) : Bool :=
  t.contains (.commit true)

/-! ## Route handlers from src/app/main.py that the claims cite -/

/-- A user row from the `users` table as the login handler reads it. -/
structure UserRec where
  id : Nat
  username : String
  password_hash : HashStr
  is_admin : Bool
  must_change_password : Bool

/-- A JSON response: body (field → value pairs) plus HTTP status. -/
structure JsonResp where
  body : List (String × String)
  status : Nat
deriving DecidableEq, Repr

/-- src/app/main.py lines 50-85: the POST branch of the `login` handler.
`lookup` embeds `db.execute_one (SELECT * FROM users WHERE username)`;
`updateBackend` drives the `UPDATE users SET last_login` call.  The
session is mutated before that UPDATE runs, so on an UPDATE failure the
handler raises with the session already set — the pair's second
component is the session as it stands when the handler returns or
raises. -/
def login_post (digest : String → Nat → Nat → Nat)
    (lookup : String → Option UserRec) (updateBackend : Backend)
    (sess : Session) (usernameRaw password : String) :
    Except PyExn JsonResp × Session :=
  let username := pyStrip usernameRaw
  if username = "" ∨ password = "" then
    (.ok ⟨[("error", "Username and password required")], 400⟩, sess)
  else
    match lookup username with
    | none =>
      (.ok ⟨[("error", "Invalid username or password")], 401⟩, sess)
    | some user =>
      match checkpw digest password user.password_hash with
      | .error e => (.error e, sess)
      | .ok ok =>
        if ok = false then
          (.ok ⟨[("error", "Invalid username or password")], 401⟩, sess)
        else
          let s2 : Session :=
            { user_id := some user.id, username := some user.username,
              is_admin := some user.is_admin,
              must_change_password := some user.must_change_password }
          match (execute_query updateBackend false).1 with
          | .error e => (.error e, s2)
          | .ok _ =>
            if user.must_change_password then
              (.ok ⟨[("redirect", "/change-password")], 200⟩, s2)
            else if user.is_admin then
              (.ok ⟨[("redirect", "/admin/users")], 200⟩, s2)
            else
              (.ok ⟨[("redirect", "/dashboard")], 200⟩, s2)

/-- src/app/main.py lines 124-137: the two database calls the
`change_password` handler issues after validation — the password UPDATE
(`fetch=False`) and then the audit INSERT into password_change_history
(`fetch=False`).  Each is its own `execute_query` call; an exception
from the first propagates and the second never runs. -/
def change_password_writes (updateB auditB : Backend) :
    Except PyExn Unit × List DbEvent :=
  match execute_query updateB false with
  | (.error e, t1) => (.error e, t1)
  | (.ok _, t1) =>
    match execute_query auditB false with
    | (.error e, t2) => (.error e, t1 ++ t2)
    | (.ok _, t2) => (.ok (), t1 ++ t2)

/-- src/app/main.py lines 360-363: the `except` branch of
`api_admin_users_create`: if the text 'duplicate key' occurs in
`str(e).lower()` respond 409, otherwise respond 500 with `str(e)`. -/
def users_create_catch (e : PyExn) : JsonResp :=
  if pyIn "duplicate key" (pyLower (pyStr e)) then
    ⟨[("error", "Username already exists")], 409⟩
  else
    ⟨[("error", pyStr e)], 500⟩

/-! ## Theorems -/

/-- C8: for every digest function, password and pair of salts (each
`hash_password` call draws a fresh salt), verification of the password
against either hash returns true, and when the salts differ the two
hash outputs differ even though the password is the same. -/
theorem C8_verify_roundtrip (digest : String → Nat → Nat → Nat)
    (p : String) (s₁ s₂ : Nat) :
    verify_password digest p (hash_password digest s₁ p) = .ok true ∧
    verify_password digest p (hash_password digest s₂ p) = .ok true ∧
    (s₁ ≠ s₂ →
      hash_password digest s₁ p ≠ hash_password digest s₂ p) := by
  refine ⟨?_, ?_, ?_⟩
  · simp [verify_password, checkpw, hash_password]
  · simp [verify_password, checkpw, hash_password]
  · intro hne h
    simp only [hash_password, HashStr.wellFormed.injEq] at h
    exact hne h.2.1

/-- Closed instance of C8 at a concrete digest function, password and
distinct salts. -/
theorem C8_verify_roundtrip_witness :
    verify_password (fun p c s => p.length + c + s) "s3cret!"
        (hash_password (fun p c s => p.length + c + s) 0 "s3cret!") =
      .ok true ∧
    hash_password (fun p c s => p.length + c + s) 0 "s3cret!" ≠
      hash_password (fun p c s => p.length + c + s) 1 "s3cret!" :=
  ⟨(C8_verify_roundtrip (fun p c s => p.length + c + s) "s3cret!" 0 1).1,
   (C8_verify_roundtrip (fun p c s => p.length + c + s) "s3cret!" 0 1).2.2
     (by decide)⟩

/-- C4 counterexample: at the concrete malformed stored hash "notahash",
`verify_password` raises ValueError (bcrypt.checkpw's behaviour on an
unparsable hash) — it does not return false, so it does not fail
closed. -/
theorem C4_counterexample :
    verify_password (fun _ _ _ => 0) "password" (HashStr.malformed "notahash") =
      .error (.valueError "Invalid salt") := rfl

/-- C4 amended: `verify_password` adds no exception handling around
bcrypt.checkpw — on a well-formed stored hash it returns the digest
comparison without raising, but on every malformed stored hash it
raises ValueError instead of returning false. -/
theorem C4_verify_raises_on_malformed (digest : String → Nat → Nat → Nat)
    (p : String) :
    (∀ cost salt d,
      verify_password digest p (.wellFormed cost salt d) =
        .ok (digest p cost salt == d)) ∧
    (∀ raw,
      verify_password digest p (.malformed raw) =
        .error (.valueError "Invalid salt")) :=
  ⟨fun _ _ _ => rfl, fun _ => rfl⟩

/-- C7: when the connection, statement and fetch all succeed,
`execute_query` with fetch enabled returns exactly the list of rows —
so a zero-row result is the empty list, never the absent value — and
`execute_one` returns the optional head row — so a zero-row result is
the explicit `none` marker, returned normally rather than raised. -/
theorem C7_empty_results (b : Backend) (hg : b.getconnOk = true)
    (he : b.executeOk = true) (hf : b.fetchOk = true) :
    (execute_query b true).1 = .ok (some b.rows) ∧
    (execute_one b).1 = .ok b.rows.head? ∧
    (b.rows = [] →
      (execute_query b true).1 = .ok (some []) ∧
      (execute_one b).1 = .ok none) := by
  refine ⟨?_, ?_, fun hrows => ?_⟩ <;>
    simp_all [execute_query, execute_one, hg, he, hf]

/-- Closed instance of C7 on an all-success backend with zero rows. -/
theorem C7_empty_results_witness :
    (execute_query (Backend.allOk []) true).1 = .ok (some []) ∧
    (execute_one (Backend.allOk [])).1 = .ok none :=
  (C7_empty_results (Backend.allOk []) rfl rfl rfl).2.2 rfl

/-- C2: whenever `get_connection` succeeds, each of the three query
operations performs exactly one pool release (`putconn`), whatever
combination of the statement execution, fetch, commit and rollback
succeeds or raises, and on the normal-return path too. -/
theorem C2_release_exactly_once (b : Backend) (fetch : Bool)
    (hg : b.getconnOk = true) :
    countPutconn (execute_query b fetch).2 = 1 ∧
    countPutconn (execute_one b).2 = 1 ∧
    countPutconn (execute_insert b).2 = 1 := by
  cases he : b.executeOk <;> cases hf : b.fetchOk <;>
    cases hc : b.commitOk <;> cases hr : b.rollbackOk <;> cases fetch <;>
    simp [execute_query, execute_one, execute_insert, exceptBranch,
      countPutconn, hg, he, hf, hc, hr]

/-- Closed instance of C2 on an all-success backend. -/
theorem C2_release_exactly_once_witness :
    countPutconn (execute_query (Backend.allOk []) true).2 = 1 ∧
    countPutconn (execute_one (Backend.allOk [])).2 = 1 ∧
    countPutconn (execute_insert (Backend.allOk [])).2 = 1 :=
  C2_release_exactly_once (Backend.allOk []) true rfl

/-- A backend whose statement execution raises `e` while every other
primitive step succeeds. -/
def execFailBackend (e : PyExn) : Backend :=
  { Backend.allOk [] with executeOk := false, executeErr := e }

/-- C3 counterexample: run `change_password`'s two database calls with
the password UPDATE succeeding and the audit INSERT's statement
raising.  The handler propagates the error — a failure occurred during
the mutating operation — yet the trace contains a successful commit:
the already-committed password UPDATE stays visible while the audit row
is absent, so the statement, audit-log insert and commit are not one
atomic unit and a partial effect is visible. -/
theorem C3_counterexample :
    (change_password_writes (Backend.allOk [])
        (execFailBackend (.psycopg2Error "08006" "connection lost"))).1 =
      .error (.psycopg2Error "08006" "connection lost") ∧
    committedEffect
      (change_password_writes (Backend.allOk [])
        (execFailBackend (.psycopg2Error "08006" "connection lost"))).2 =
      true := by
  constructor <;> rfl

/-- C3 amended: each single execute call is atomic — on any failure
after acquiring the connection it attempts a rollback, propagates an
error and commits nothing, and on success its trace is exactly
statement (and RETURNING fetch) strictly followed by the commit.  The
audit-log insert, however, is not inside the primary statement's
execute call: `change_password` issues it as a second, separately
committed `execute_query`, so a failure there leaves the
already-committed password update visible (see the counterexample). -/
theorem C3_single_call_atomicity (b : Backend) (hg : b.getconnOk = true) :
    (∀ e t, execute_insert b = (.error e, t) →
      committedEffect t = false ∧ DbEvent.rollback ∈ t) ∧
    (∀ r, (execute_insert b).1 = .ok r →
      (execute_insert b).2 =
        [.getconn, .execute, .fetchone, .commit true, .putconn]) ∧
    (∀ e t, execute_query b false = (.error e, t) →
      committedEffect t = false ∧ DbEvent.rollback ∈ t) ∧
    (∀ r, (execute_query b false).1 = .ok r →
      (execute_query b false).2 =
        [.getconn, .execute, .commit true, .putconn]) := by
  cases he : b.executeOk <;> cases hf : b.fetchOk <;>
    cases hc : b.commitOk <;> cases hr : b.rollbackOk <;>
    simp [execute_query, execute_insert, exceptBranch, committedEffect,
      hg, he, hf, hc, hr]

/-- Closed instance of C3's amended statement on an all-success
backend: the successful insert's trace is statement, fetch, commit,
release, in that order. -/
theorem C3_single_call_atomicity_witness :
    (execute_insert (Backend.allOk [])).2 =
      [.getconn, .execute, .fetchone, .commit true, .putconn] :=
  (C3_single_call_atomicity (Backend.allOk []) rfl).2.1 none rfl

/-- A genuine duplicate-uniqueness violation: psycopg2 reports SQLSTATE
23505 (unique_violation), here with a message text from a server whose
locale is not English. -/
def uniqueViolationLocalized : PyExn :=
  .psycopg2Error "23505" "ERROR: llave duplicada viola restriccion de unicidad"

/-- An error that is not a uniqueness violation (SQLSTATE 57014,
query_canceled) whose message happens to contain the text 'duplicate
key'. -/
def spuriousTextError : PyExn :=
  .psycopg2Error "57014" "canceling statement with duplicate key note"

/-- True exactly when a raised result is the distinguished
DataAccessError wrapper. -/
def errorIsDataAccess {α : Type} : Except PyExn α → Bool
  | .error (.dataAccessError _) => true
  | _ => false

/-- C5 counterexample: when the statement raises the structurally
tagged unique violation, `execute_query` propagates the original
psycopg2 exception itself — not a DataAccessError wrapper — and
`api_admin_users_create` classifies it as a 500 internal error because
its message text lacks the substring 'duplicate key', while a
non-violation whose message merely contains that text is classified as
a 409 conflict: the caller string-matches the message and ignores the
structured indicator. -/
theorem C5_counterexample :
    (execute_query (execFailBackend uniqueViolationLocalized) true).1 =
      .error uniqueViolationLocalized ∧
    errorIsDataAccess
      (execute_query (execFailBackend uniqueViolationLocalized) true).1 =
      false ∧
    (users_create_catch uniqueViolationLocalized).status = 500 ∧
    (users_create_catch spuriousTextError).status = 409 := by
  refine ⟨rfl, rfl, ?_, ?_⟩ <;> decide

/-- C5 amended: on a statement failure `execute_query` re-raises the
original exception unchanged (no DataAccessError wrapper exists in the
code), and `api_admin_users_create`'s conflict-vs-internal
classification depends only on the message text `str(e)` — two
exceptions with the same message but different SQLSTATEs are classified
identically, so the structured indicator is ignored. -/
theorem C5_error_propagation (b : Backend) (hg : b.getconnOk = true)
    (he : b.executeOk = false) (hr : b.rollbackOk = true) :
    (execute_query b true).1 = .error b.executeErr ∧
    ∀ e₁ e₂ : PyExn, pyStr e₁ = pyStr e₂ →
      users_create_catch e₁ = users_create_catch e₂ := by
  constructor
  · simp [execute_query, exceptBranch, hg, he, hr]
  · intro e₁ e₂ h
    simp [users_create_catch, h]

/-- Closed instance of C5's amended statement: a concrete propagated
statement error, and two exceptions sharing a message but differing in
SQLSTATE classified the same way. -/
theorem C5_error_propagation_witness :
    (execute_query (execFailBackend (.psycopg2Error "23505" "boom")) true).1 =
      .error (.psycopg2Error "23505" "boom") ∧
    users_create_catch (.psycopg2Error "23505" "boom") =
      users_create_catch (.psycopg2Error "57014" "boom") :=
  ⟨(C5_error_propagation (execFailBackend (.psycopg2Error "23505" "boom"))
      rfl rfl rfl).1,
   (C5_error_propagation (execFailBackend (.psycopg2Error "23505" "boom"))
      rfl rfl rfl).2 (.psycopg2Error "23505" "boom")
      (.psycopg2Error "57014" "boom") rfl⟩

/-- C6: a failed login with a username the store does not contain and a
failed login with an existing username but wrong password (against a
well-formed stored hash) both produce exactly the JSON body
`error: Invalid username or password` with status 401 — the two causes
are indistinguishable from the response. -/
theorem C6_login_no_leak (digest : String → Nat → Nat → Nat)
    (lookup : String → Option UserRec) (ub : Backend) (sess : Session)
    (u₁ p₁ u₂ p₂ : String) (user : UserRec)
    (h₁ : pyStrip u₁ ≠ "") (hp₁ : p₁ ≠ "")
    (h₂ : pyStrip u₂ ≠ "") (hp₂ : p₂ ≠ "")
    (hnone : lookup (pyStrip u₁) = none)
    (hsome : lookup (pyStrip u₂) = some user)
    (hwrong : checkpw digest p₂ user.password_hash = .ok false) :
    (login_post digest lookup ub sess u₁ p₁).1 =
      .ok ⟨[("error", "Invalid username or password")], 401⟩ ∧
    (login_post digest lookup ub sess u₂ p₂).1 =
      .ok ⟨[("error", "Invalid username or password")], 401⟩ ∧
    (login_post digest lookup ub sess u₁ p₁).1 =
      (login_post digest lookup ub sess u₂ p₂).1 := by
  refine ⟨?_, ?_, ?_⟩ <;>
    simp [login_post, h₁, hp₁, h₂, hp₂, hnone, hsome, hwrong]

/-- Closed instance of C6: the store holds only alice; a login as the
unknown bob and a login as alice with the wrong password yield the same
401 response. -/
theorem C6_login_no_leak_witness :
    (login_post (fun p _ _ => p.length)
        (fun u => if u = "alice"
          then some ⟨1, "alice", .wellFormed 12 0 99, false, false⟩
          else none)
        (Backend.allOk []) ⟨none, none, none, none⟩ "bob" "wrongpw").1 =
      .ok ⟨[("error", "Invalid username or password")], 401⟩ ∧
    (login_post (fun p _ _ => p.length)
        (fun u => if u = "alice"
          then some ⟨1, "alice", .wellFormed 12 0 99, false, false⟩
          else none)
        (Backend.allOk []) ⟨none, none, none, none⟩ "alice" "wrongpw").1 =
      .ok ⟨[("error", "Invalid username or password")], 401⟩ := by
  have h := C6_login_no_leak (fun p _ _ => p.length)
    (fun u => if u = "alice"
      then some ⟨1, "alice", .wellFormed 12 0 99, false, false⟩
      else none)
    (Backend.allOk []) ⟨none, none, none, none⟩ "bob" "wrongpw"
    "alice" "wrongpw" ⟨1, "alice", .wellFormed 12 0 99, false, false⟩
    (by decide) (by decide) (by decide) (by decide) rfl rfl rfl
  exact ⟨h.1, h.2.1⟩

/-- C1: with no user identity in the session, both gates short-circuit
with the 401 JSON error or the login redirect and never return the
handler's result (the outcome is a failure value independent of `f`);
with an identity whose admin flag is not true, `admin_required`
short-circuits with the 403 JSON error or a redirect to the dashboard —
never to login; with an admin identity, `admin_required` invokes the
wrapped handler. -/
theorem C1_gate_tiering {α : Type} (f : Session → α) (sess : Session)
    (path : String) :
    (sess.user_id = none →
      login_required f sess path =
        (if pyStartswith path "/api/" then .jsonError "Unauthorized" 401
         else .redirectTo "login") ∧
      admin_required f sess path =
        (if pyStartswith path "/api/" then .jsonError "Unauthorized" 401
         else .redirectTo "login")) ∧
    (sess.user_id.isSome = true → sess.is_admin.getD false = false →
      admin_required f sess path =
        (if pyStartswith path "/api/" then
          .jsonError "Forbidden - Admin access required" 403
         else .redirectTo "dashboard")) ∧
    (sess.user_id.isSome = true → sess.is_admin.getD false = true →
      admin_required f sess path = .handled (f sess)) := by
  refine ⟨fun hnone => ?_, fun hsome hadm => ?_, fun hsome hadm => ?_⟩ <;>
    cases hu : sess.user_id <;>
    simp_all [login_required, admin_required]

/-- Closed instances of C1's three tiers: an empty session against an
API route is rejected 401; a non-admin session against an admin page is
sent to the dashboard (not to login); an admin session reaches the
handler. -/
theorem C1_gate_tiering_witness :
    login_required (fun _ => (7 : Nat)) ⟨none, none, none, none⟩
        "/api/auth/me" = .jsonError "Unauthorized" 401 ∧
    admin_required (fun _ => (7 : Nat))
        ⟨some 2, some "bob", some false, some false⟩ "/admin/users" =
      .redirectTo "dashboard" ∧
    admin_required (fun _ => (7 : Nat))
        ⟨some 1, some "root", some true, some false⟩ "/admin/users" =
      .handled 7 := by
  have h1 := (C1_gate_tiering (fun _ => (7 : Nat)) ⟨none, none, none, none⟩
    "/api/auth/me").1 rfl
  have h2 := (C1_gate_tiering (fun _ => (7 : Nat))
    ⟨some 2, some "bob", some false, some false⟩ "/admin/users").2.1 rfl rfl
  have h3 := (C1_gate_tiering (fun _ => (7 : Nat))
    ⟨some 1, some "root", some true, some false⟩ "/admin/users").2.2 rfl rfl
  have hapi : pyStartswith "/api/auth/me" "/api/" = true := by decide
  have hpage : pyStartswith "/admin/users" "/api/" = false := by decide
  rw [hapi] at h1
  rw [hpage] at h2
  exact ⟨h1.1, h2, h3⟩

/-- C9: for a request failing a gate check, the response is the JSON
error (401 or 403) exactly when the path starts with '/api/', and on
every other path it is a redirect — to login for the unauthenticated
check of either gate, to the dashboard for the failed admin check; the
classification depends on nothing but the path prefix. -/
theorem C9_api_prefix_bifurcation {α : Type} (f : Session → α)
    (sess : Session) (path : String) :
    (sess.user_id = none →
      ((login_required f sess path).isJsonError = pyStartswith path "/api/") ∧
      ((admin_required f sess path).isJsonError = pyStartswith path "/api/") ∧
      (pyStartswith path "/api/" = false →
        login_required f sess path = .redirectTo "login" ∧
        admin_required f sess path = .redirectTo "login") ∧
      (pyStartswith path "/api/" = true →
        login_required f sess path = .jsonError "Unauthorized" 401 ∧
        admin_required f sess path = .jsonError "Unauthorized" 401)) ∧
    (sess.user_id.isSome = true → sess.is_admin.getD false = false →
      ((admin_required f sess path).isJsonError = pyStartswith path "/api/") ∧
      (pyStartswith path "/api/" = false →
        admin_required f sess path = .redirectTo "dashboard") ∧
      (pyStartswith path "/api/" = true →
        admin_required f sess path =
          .jsonError "Forbidden - Admin access required" 403)) := by
  constructor
  · intro hnone
    cases hapi : pyStartswith path "/api/" <;>
      simp_all [login_required, admin_required, GateResult.isJsonError]
  · intro hsome hadm
    cases hu : sess.user_id <;>
      cases hapi : pyStartswith path "/api/" <;>
      simp_all [admin_required, GateResult.isJsonError]

/-- Closed instances of C9: the same unauthenticated session is given
JSON 401 on an API path and a login redirect on a page path; the same
non-admin session is given JSON 403 on an API path and a dashboard
redirect on a page path. -/
theorem C9_api_prefix_bifurcation_witness :
    login_required (fun _ => (7 : Nat)) ⟨none, none, none, none⟩
        "/api/dashboard/items" = .jsonError "Unauthorized" 401 ∧
    login_required (fun _ => (7 : Nat)) ⟨none, none, none, none⟩
        "/dashboard" = .redirectTo "login" ∧
    admin_required (fun _ => (7 : Nat))
        ⟨some 2, some "bob", some false, some false⟩ "/api/admin/users" =
      .jsonError "Forbidden - Admin access required" 403 ∧
    admin_required (fun _ => (7 : Nat))
        ⟨some 2, some "bob", some false, some false⟩ "/admin/users" =
      .redirectTo "dashboard" := by
  have h1 := ((C9_api_prefix_bifurcation (fun _ => (7 : Nat))
    ⟨none, none, none, none⟩ "/api/dashboard/items").1 rfl).2.2.2 (by decide)
  have h2 := ((C9_api_prefix_bifurcation (fun _ => (7 : Nat))
    ⟨none, none, none, none⟩ "/dashboard").1 rfl).2.2.1 (by decide)
  have h3 := ((C9_api_prefix_bifurcation (fun _ => (7 : Nat))
    ⟨some 2, some "bob", some false, some false⟩ "/api/admin/users").2
    rfl rfl).2.2 (by decide)
  have h4 := ((C9_api_prefix_bifurcation (fun _ => (7 : Nat))
    ⟨some 2, some "bob", some false, some false⟩ "/admin/users").2
    rfl rfl).2.1 (by decide)
  exact ⟨h1.1, h2.1, h3, h4⟩

/-- C10: a session holding a user identity but no is_admin entry is
treated as non-admin: `admin_required` short-circuits with the 403 JSON
error or the dashboard redirect, and `get_current_user` reports
`is_admin = false` — the flag's omission never grants administrator
status. -/
theorem C10_admin_default_closed {α : Type} (f : Session → α)
    (path : String) (uid : Nat) (un : String) (mcp : Option Bool) :
    admin_required f ⟨some uid, some un, none, mcp⟩ path =
      (if pyStartswith path "/api/" then
        .jsonError "Forbidden - Admin access required" 403
       else .redirectTo "dashboard") ∧
    get_current_user ⟨some uid, some un, none, mcp⟩ =
      .ok (some ⟨uid, un, false⟩) := by
  constructor <;> simp [admin_required, get_current_user]

end Dashboard
